import Mathlib

/-!
Shallow embedding of the rmw_fastrtps core shown in
`src/rmw_fastrtps_shared_cpp/src/rmw_node_info_and_types.cpp` (graph query
layer) and `src/rmw_fastrtps_cpp/src/subscription.cpp` (subscription entity
factory), together with theorems settling the specification claims.

Nullable C pointers are embedded as `Option`, rmw return codes as an
inductive, and the external collaborators that the shown source only calls
(the demangle strategies, the rmw container zero-check, the graph cache, the
type-support resolution and the transport participant) are modelled from the
specification where noted.
-/

namespace RmwFastrtps

/-- Return codes of the rmw layer produced by this core. -/
inductive RmwRet
  | ok
  | error
  | invalidArgument
  | badAlloc
  deriving DecidableEq, Repr

/-- A demangling strategy: maps a raw transport-level name to a ROS-level
name, or signals "not applicable" with `none`. -/
abbrev DemangleFunction := String → Option String

/-- Identity demangler installed by the no-demangle override: always
applicable, returns its input unchanged. -/
def _identity_demangle : DemangleFunction := fun s => some s

/-- Marker test at the front of a string, over the character-list view so
that the embedding evaluates inside the kernel. -/
def strHasPfx (p s : String) : Bool := p.data.isPrefixOf s.data

/-- Marker test at the end of a string, over the character-list view. -/
def strHasSfx (p s : String) : Bool := p.data.isSuffixOf s.data

/-- Drop the first `n` characters of a string. -/
def strDrop (s : String) (n : Nat) : String := ⟨s.data.drop n⟩

/-- Drop the last `n` characters of a string. -/
def strDropRight (s : String) (n : Nat) : String :=
  ⟨s.data.take (s.data.length - n)⟩

/-- Length of a string in characters. -/
def strLen (s : String) : Nat := s.data.length

/-- Split a character list at the first occurrence of a marker, returning
the parts before and after it; `none` when the marker does not occur. -/
def splitOnceAux (sep : List Char) (acc : List Char) :
    List Char → Option (List Char × List Char)
  | [] => none
  | c :: cs =>
    if sep.isPrefixOf (c :: cs) then some (acc.reverse, (c :: cs).drop sep.length)
    else splitOnceAux sep (c :: acc) cs

/-- Split a string at the first occurrence of a marker. -/
def splitOnce (sep s : String) : Option (String × String) :=
  (splitOnceAux sep.data [] s.data).map fun p => (⟨p.1⟩, ⟨p.2⟩)

/-- Fixed marker put in front of raw ROS topic names. -/
def ros_topic_pfx : String := "rt"

/-- Marker in front of raw service request topics. -/
def ros_service_requester_pfx : String := "rq/"

/-- Marker in front of raw service reply topics. -/
def ros_service_response_pfx : String := "rr/"

/-- Modelled from the spec: `demangle.cpp` is not part of the shown source.
The ros-topic demangler strips the fixed ROS topic-name marker and is
inapplicable (returns `none`) when the marker is absent. -/
def _demangle_ros_topic_from_topic : DemangleFunction := fun s =>
  if strHasPfx ros_topic_pfx s then some (strDrop s (strLen ros_topic_pfx))
  else none

/-- Modelled from the spec: recognizes the ROS type-encoding convention
`pkg::msg::dds_::Name_` and converts it to the human name `pkg/msg/Name`;
inapplicable for names not encoded this way. -/
def _demangle_if_ros_type : DemangleFunction := fun s =>
  match splitOnce "::msg::dds_::" s with
  | some (pkg, rest) =>
    if strHasSfx "_" rest && rest != "_" && pkg != "" then
      some (pkg ++ "/msg/" ++ strDropRight rest 1)
    else none
  | none => none

/-- Modelled from the spec: recognizes the fixed markers encoding a service
request topic and strips them (spec scenario: raw reader name
`rq/add_two_ints_Request` demangles to `add_two_ints`); inapplicable
otherwise. -/
def _demangle_service_request_from_topic : DemangleFunction := fun s =>
  if strHasPfx ros_service_requester_pfx s && strHasSfx "_Request" s then
    some (strDropRight (strDrop s (strLen ros_service_requester_pfx))
      (strLen "_Request"))
  else none

/-- Modelled from the spec: recognizes the fixed markers encoding a service
reply topic and strips them; inapplicable otherwise. -/
def _demangle_service_reply_from_topic : DemangleFunction := fun s =>
  if strHasPfx ros_service_response_pfx s && strHasSfx "_Reply" s then
    some (strDropRight (strDrop s (strLen ros_service_response_pfx))
      (strLen "_Reply"))
  else none

/-- Modelled from the spec: strips the services-specific type marker,
applicable only to type names matching that convention. -/
def _demangle_service_type_only : DemangleFunction := fun s =>
  if strHasSfx "_Request_" s then some (strDropRight s (strLen "_Request_"))
  else if strHasSfx "_Response_" s then
    some (strDropRight s (strLen "_Response_"))
  else none

/-- One discovered endpoint recorded in the shared graph index: the node it
belongs to and the raw transport-level topic and type names. -/
structure GraphEntity where
  nodeName : String
  nodeNamespace : String
  topicName : String
  typeName : String
  deriving DecidableEq, Repr

/-- Modelled from the spec: the shared graph index, split into its
reader-side and writer-side halves; this core only queries it. -/
structure GraphCache where
  readers : List GraphEntity
  writers : List GraphEntity
  deriving DecidableEq, Repr

/-- Output container abstraction: mapping from resolved name to resolved
type names. -/
structure NamesAndTypes where
  entries : List (String × List String)
  deriving DecidableEq, Repr

/-- The rcutils allocator is opaque to this core; only its presence matters. -/
abbrev Allocator := Unit

/-- Caller-visible node handle: implementation identity tag plus the route
to the shared graph context (`node->context->impl->common`). -/
structure RmwNode where
  implementation_identifier : String
  context : GraphCache
  deriving DecidableEq, Repr

/-- Modelled from the spec: `rmw_names_and_types_check_zero` of the rmw
layer accepts only a present, zero-initialized output container and rejects
anything else as an invalid argument. -/
def rmw_names_and_types_check_zero : Option NamesAndTypes → RmwRet
  | none => RmwRet.invalidArgument
  | some t => if t.entries = [] then RmwRet.ok else RmwRet.invalidArgument

/-- Validate the input data of the node_info_and_types queries, with the
checks of `__validate_input` in source order: allocator, node handle, node
name, node namespace, zero-initialized output container, implementation
identity (the last returning `RmwRet.error`). -/
def __validate_input (identifier : String) (node : Option RmwNode)
    (allocator : Option Allocator) (node_name node_namespace : Option String)
    (topic_names_and_types : Option NamesAndTypes) : RmwRet :=
  match allocator with
  | none => RmwRet.invalidArgument
  | some _ =>
    match node with
    | none => RmwRet.invalidArgument
    | some n =>
      match node_name with
      | none => RmwRet.invalidArgument
      | some _ =>
        match node_namespace with
        | none => RmwRet.invalidArgument
        | some _ =>
          match rmw_names_and_types_check_zero topic_names_and_types with
          | RmwRet.ok =>
            if n.implementation_identifier ≠ identifier then RmwRet.error
            else RmwRet.ok
          | r => r

/-- Signature of the reader-side/writer-side index accessors
(`GetNamesAndTypesByNodeFunction` in the source). -/
abbrev GetNamesAndTypesByNodeFunction :=
  GraphCache → String → String → DemangleFunction → DemangleFunction →
    Allocator → RmwRet × NamesAndTypes

/-- Does a graph entity belong to the named node. -/
def entityMatches (node_name node_namespace : String) (e : GraphEntity) : Bool :=
  e.nodeName == node_name && e.nodeNamespace == node_namespace

/-- Modelled from the spec: the graph cache owns matching and aggregation.
It keeps the entities of the named node whose topic name and type name both
demangle, reporting them with the demanglers applied. -/
def getNamesAndTypesByNode (entities : List GraphEntity)
    (node_name node_namespace : String)
    (demangle_topic demangle_type : DemangleFunction) : NamesAndTypes :=
  ⟨entities.filterMap fun e =>
    if entityMatches node_name node_namespace e then
      match demangle_topic e.topicName, demangle_type e.typeName with
      | some nm, some ty => some (nm, [ty])
      | _, _ => none
    else none⟩

/-- Reader-side accessor, delegating to the reader half of the graph cache
(`__get_reader_names_and_types_by_node`). -/
def __get_reader_names_and_types_by_node : GetNamesAndTypesByNodeFunction :=
  fun common_context node_name node_namespace demangle_topic demangle_type _ =>
    (RmwRet.ok,
      getNamesAndTypesByNode common_context.readers node_name node_namespace
        demangle_topic demangle_type)

/-- Writer-side accessor, delegating to the writer half of the graph cache
(`__get_writer_names_and_types_by_node`). -/
def __get_writer_names_and_types_by_node : GetNamesAndTypesByNodeFunction :=
  fun common_context node_name node_namespace demangle_topic demangle_type _ =>
    (RmwRet.ok,
      getNamesAndTypesByNode common_context.writers node_name node_namespace
        demangle_topic demangle_type)

/-- Shared dispatcher `__rmw_get_topic_names_and_types_by_node`: validates,
substitutes the identity demangler pair when `no_demangle` is set, and
delegates to the selected index accessor. Returns the rmw return code and
the output container, which is left unchanged when validation rejects. -/
def __rmw_get_topic_names_and_types_by_node (identifier : String)
    (node : Option RmwNode) (allocator : Option Allocator)
    (node_name node_namespace : Option String)
    (demangle_topic demangle_type : DemangleFunction) (no_demangle : Bool)
    (get_names_and_types_by_node : GetNamesAndTypesByNodeFunction)
    (topic_names_and_types : Option NamesAndTypes) :
    RmwRet × Option NamesAndTypes :=
  let valid_input := __validate_input identifier node allocator node_name
    node_namespace topic_names_and_types
  if valid_input ≠ RmwRet.ok then
    (valid_input, topic_names_and_types)
  else
    let common_context :=
      (node.getD { implementation_identifier := identifier, context := ⟨[], []⟩ }).context
    let dt := if no_demangle then _identity_demangle else demangle_topic
    let dy := if no_demangle then _identity_demangle else demangle_type
    let out := get_names_and_types_by_node common_context (node_name.getD "")
      (node_namespace.getD "") dt dy ()
    (out.1, some out.2)

/-- Subscriber-by-node query: ros-topic and ros-type demanglers over the
reader-side index (`__rmw_get_subscriber_names_and_types_by_node`). -/
def __rmw_get_subscriber_names_and_types_by_node (identifier : String)
    (node : Option RmwNode) (allocator : Option Allocator)
    (node_name node_namespace : Option String) (no_demangle : Bool)
    (topic_names_and_types : Option NamesAndTypes) :
    RmwRet × Option NamesAndTypes :=
  __rmw_get_topic_names_and_types_by_node identifier node allocator node_name
    node_namespace _demangle_ros_topic_from_topic _demangle_if_ros_type
    no_demangle __get_reader_names_and_types_by_node topic_names_and_types

/-- Publisher-by-node query: ros-topic and ros-type demanglers over the
writer-side index (`__rmw_get_publisher_names_and_types_by_node`). -/
def __rmw_get_publisher_names_and_types_by_node (identifier : String)
    (node : Option RmwNode) (allocator : Option Allocator)
    (node_name node_namespace : Option String) (no_demangle : Bool)
    (topic_names_and_types : Option NamesAndTypes) :
    RmwRet × Option NamesAndTypes :=
  __rmw_get_topic_names_and_types_by_node identifier node allocator node_name
    node_namespace _demangle_ros_topic_from_topic _demangle_if_ros_type
    no_demangle __get_writer_names_and_types_by_node topic_names_and_types

/-- Service-by-node query: request-name demangler and service-type demangler
over the reader-side index, with the dispatcher's no-demangle flag hardwired
to `false` (`__rmw_get_service_names_and_types_by_node`). -/
def __rmw_get_service_names_and_types_by_node (identifier : String)
    (node : Option RmwNode) (allocator : Option Allocator)
    (node_name node_namespace : Option String)
    (service_names_and_types : Option NamesAndTypes) :
    RmwRet × Option NamesAndTypes :=
  __rmw_get_topic_names_and_types_by_node identifier node allocator node_name
    node_namespace _demangle_service_request_from_topic
    _demangle_service_type_only false __get_reader_names_and_types_by_node
    service_names_and_types

/-- Client-by-node query: reply-name demangler and service-type demangler
over the reader-side index, with the dispatcher's no-demangle flag hardwired
to `false` (`__rmw_get_client_names_and_types_by_node`). -/
def __rmw_get_client_names_and_types_by_node (identifier : String)
    (node : Option RmwNode) (allocator : Option Allocator)
    (node_name node_namespace : Option String)
    (service_names_and_types : Option NamesAndTypes) :
    RmwRet × Option NamesAndTypes :=
  __rmw_get_topic_names_and_types_by_node identifier node allocator node_name
    node_namespace _demangle_service_reply_from_topic
    _demangle_service_type_only false __get_reader_names_and_types_by_node
    service_names_and_types

/-- Resources acquired and released by the subscription entity factory,
identified by allocation ids. -/
inductive Resource
  | info (id : Nat)
  | typeSupportAdapter (id : Nat)
  | listener (id : Nat)
  | subscriber (id : Nat)
  | subscriptionHandle (id : Nat)
  | topicNameString (id : Nat)
  deriving DecidableEq, Repr

/-- Allocation / deallocation trace events of one factory call. -/
inductive Event
  | alloc (r : Resource)
  | free (r : Resource)
  deriving DecidableEq, Repr

/-- Message type-support callbacks; the wire-level type name they determine
is carried explicitly. -/
structure MessageTypeSupportCallbacks where
  typeName : String
  deriving DecidableEq, Repr

/-- Modelled from the spec: `_create_type_name` of `type_support_common.hpp`
is not in the shown source; it derives the wire-level type name from the
type-support callbacks (step 2 of the creation sequence). -/
def _create_type_name (callbacks : MessageTypeSupportCallbacks) : String :=
  callbacks.typeName

/-- One type-support candidate, tagged by its convention identifier. -/
structure TypeSupportCandidate where
  typesupport_identifier : String
  callbacks : MessageTypeSupportCallbacks
  deriving DecidableEq, Repr

/-- Convention tag of the C type support recognized by this core. -/
def RMW_FASTRTPS_CPP_TYPESUPPORT_C : String := "rosidl_typesupport_fastrtps_c"

/-- Convention tag of the C++ type support recognized by this core. -/
def RMW_FASTRTPS_CPP_TYPESUPPORT_CPP : String := "rosidl_typesupport_fastrtps_cpp"

/-- Implementation identity tag stamped on created handles. -/
def eprosima_fastrtps_identifier : String := "rmw_fastrtps_cpp"

/-- Modelled from the spec: `get_message_typesupport_handle` returns the
candidate tagged with the requested convention identifier, if any. -/
def get_message_typesupport_handle (type_supports : List TypeSupportCandidate)
    (identifier : String) : Option TypeSupportCandidate :=
  type_supports.find? fun c => c.typesupport_identifier == identifier

/-- Resolution of the type support as in the source: try the C convention
first, then the C++ convention. -/
def resolve_type_support (type_supports : List TypeSupportCandidate) :
    Option TypeSupportCandidate :=
  match get_message_typesupport_handle type_supports
      RMW_FASTRTPS_CPP_TYPESUPPORT_C with
  | some t => some t
  | none =>
    get_message_typesupport_handle type_supports RMW_FASTRTPS_CPP_TYPESUPPORT_CPP

/-- QoS profile: the outcomes of the two external QoS checks and the
namespace-conventions flag used when building the fully-qualified topic
name. -/
structure QosProfile where
  valid : Bool
  datareader_ok : Bool
  avoid_ros_namespace_conventions : Bool
  deriving DecidableEq, Repr

/-- Modelled from the spec: the external QoS validity check. -/
def is_valid_qos (q : QosProfile) : Bool := q.valid

/-- Modelled from the spec: `_create_topic_name` builds the fully-qualified
topic name from the QoS-implied naming rules plus the ROS topic marker. -/
def _create_topic_name (q : QosProfile) (pfx topic_name : String) : String :=
  if q.avoid_ros_namespace_conventions then topic_name else pfx ++ topic_name

/-- Transport-level reader attributes populated before reader creation. -/
structure SubscriberAttributes where
  historyPreallocRealloc : Bool
  withKey : Bool
  topicDataType : String
  topicName : String
  readerQosApplied : Bool
  deriving DecidableEq, Repr

/-- Default attributes loaded from the XML profile
(`Domain::getDefaultSubscriberAttributes`). -/
def defaultSubscriberAttributes : SubscriberAttributes :=
  { historyPreallocRealloc := false, withKey := false, topicDataType := "",
    topicName := "", readerQosApplied := false }

/-- Modelled from the spec: translation of QoS policies into reader
attributes; whether the translation succeeds is an external outcome carried
by the profile. -/
def get_datareader_qos (q : QosProfile) (a : SubscriberAttributes) :
    Option SubscriberAttributes :=
  if q.datareader_ok then some { a with readerQosApplied := true } else none

/-- Transport-level participant: its registered-type table (wire type name
to descriptor id) and a counter from which fresh resource ids are drawn. -/
structure Participant where
  registry : List (String × Nat)
  nextId : Nat
  deriving DecidableEq, Repr

/-- Participant wrapper passed to the factory
(`CustomParticipantInfo`). -/
structure CustomParticipantInfo where
  participant : Option Participant
  leave_middleware_default_qos : Bool
  deriving DecidableEq, Repr

/-- Registered-type lookup by name (`Domain::getRegisteredType`). -/
def getRegisteredType (p : Participant) (type_name : String) : Option Nat :=
  (p.registry.find? fun e => e.1 == type_name).map fun e => e.2

/-- Type registration against the participant (`_register_type`). -/
def _register_type (p : Participant) (type_name : String) (d : Nat) :
    Participant :=
  { p with registry := (type_name, d) :: p.registry }

/-- Deduplicated type registration: the inlined registry step of
`create_subscription`. Look the wire type name up; on a hit return the
registered descriptor without invoking the factory; on a miss run the
factory (an adapter allocation, which may fail) and register the fresh
descriptor. Returns the descriptor (`none` on factory failure), the
participant after the call, and whether the factory ran. -/
def getOrRegister (factory_ok : Bool) (p : Participant) (type_name : String) :
    Option Nat × Participant × Bool :=
  match getRegisteredType p type_name with
  | some d => (some d, p, false)
  | none =>
    if factory_ok then
      let d := p.nextId
      (some d, _register_type { p with nextId := p.nextId + 1 } type_name d,
        true)
    else (none, p, false)

/-- Transport reader created by `Domain::createSubscriber`, carrying its id
and the attributes and listener flag it was created with. -/
structure Subscriber where
  sid : Nat
  attrs : SubscriberAttributes
  hasListener : Bool
  deriving DecidableEq, Repr

/-- Global identifier derived from the reader's transport identity. -/
structure RmwGid where
  implementation_identifier : String
  guid : Nat
  deriving DecidableEq, Repr

/-- Derivation of the global identifier (`create_rmw_gid`). -/
def create_rmw_gid (identifier : String) (guid : Nat) : RmwGid :=
  { implementation_identifier := identifier, guid := guid }

/-- Metadata record of one subscription (`CustomSubscriberInfo`): pointers
to the type-support adapter, the optional listener and the transport
reader, plus the derived global identifier. -/
structure CustomSubscriberInfo where
  infoId : Nat
  typesupport_identifier : String
  type_support : Option Nat
  listener : Option Nat
  subscriber : Option Subscriber
  subscription_gid : Option RmwGid
  deriving DecidableEq, Repr

/-- Creation options; an opaque payload whose copying is observable. -/
structure SubscriptionOptions where
  payload : Nat
  deriving DecidableEq, Repr

/-- Caller-visible subscription handle (`rmw_subscription_t`): identity
tag, opaque data pointer, independently owned copy of the topic name, and a
copy of the creation options. -/
structure RmwSubscription where
  handleId : Nat
  implementation_identifier : String
  data : CustomSubscriberInfo
  topic_name : String
  topicStringId : Nat
  options : SubscriptionOptions
  deriving DecidableEq, Repr

/-- Failure injection for the fallible external acquisitions of
`create_subscription`, in source order. -/
structure Env where
  info_alloc_ok : Bool
  type_support_alloc_ok : Bool
  listener_alloc_ok : Bool
  create_subscriber_ok : Bool
  subscription_alloc_ok : Bool
  strdup_ok : Bool
  deriving DecidableEq, Repr

/-- Environment in which every external acquisition succeeds. -/
def allOk : Env :=
  { info_alloc_ok := true, type_support_alloc_ok := true,
    listener_alloc_ok := true, create_subscriber_ok := true,
    subscription_alloc_ok := true, strdup_ok := true }

/-- Result of one `create_subscription` call: the returned handle (`none`
is the C null return), the participant info after the call, the allocation
and deallocation trace, and the process-wide error-message slot. -/
structure CreateResult where
  handle : Option RmwSubscription
  pinfo : Option CustomParticipantInfo
  trace : List Event
  errorMsg : Option String
  deriving DecidableEq, Repr

/-- The unified `fail:` label of the source: when the metadata record
exists, delete its type-support adapter pointer and its listener pointer
(deleting a null pointer is a no-op) and the record itself; then free the
caller-visible handle allocation when it exists. -/
def failUnwind (info : Option CustomSubscriberInfo) (handleId : Option Nat) :
    List Event :=
  (match info with
   | none => []
   | some i =>
     (match i.type_support with
      | some d => [Event.free (Resource.typeSupportAdapter d)]
      | none => [])
     ++ (match i.listener with
        | some l => [Event.free (Resource.listener l)]
        | none => [])
     ++ [Event.free (Resource.info i.infoId)])
  ++ (match handleId with
   | none => []
   | some h => [Event.free (Resource.subscriptionHandle h)])

/-- The subscription entity factory `create_subscription`, following the
source step by step: fail-fast validation, metadata record allocation,
deduplicated type registration, attribute population, QoS translation,
optional listener, transport reader creation, global identifier, handle
allocation and topic-name copy, with every failure routed through the
unified `fail:` unwind. -/
def create_subscription (env : Env)
    (participant_info : Option CustomParticipantInfo)
    (type_supports : List TypeSupportCandidate)
    (topic_name : Option String)
    (qos_policies : Option QosProfile)
    (subscription_options : Option SubscriptionOptions)
    (keyed : Bool) (create_subscription_listener : Bool) : CreateResult :=
  match topic_name with
  | none =>
    { handle := none, pinfo := participant_info, trace := [],
      errorMsg := some "subscription topic is null or empty string" }
  | some tn =>
  if strLen tn = 0 then
    { handle := none, pinfo := participant_info, trace := [],
      errorMsg := some "subscription topic is null or empty string" }
  else
  match qos_policies with
  | none =>
    { handle := none, pinfo := participant_info, trace := [],
      errorMsg := some "qos_policies is null" }
  | some qos =>
  match subscription_options with
  | none =>
    { handle := none, pinfo := participant_info, trace := [],
      errorMsg := some "subscription_options is null" }
  | some opts =>
  match participant_info with
  | none =>
    { handle := none, pinfo := none, trace := [],
      errorMsg := some "participant_info is null" }
  | some pinfo =>
  match pinfo.participant with
  | none =>
    { handle := none, pinfo := some pinfo, trace := [],
      errorMsg := some "participant handle is null" }
  | some participant =>
  match resolve_type_support type_supports with
  | none =>
    { handle := none, pinfo := some pinfo, trace := [],
      errorMsg := some "type support not from this implementation" }
  | some type_support =>
  if !is_valid_qos qos then
    { handle := none, pinfo := some pinfo, trace := [], errorMsg := none }
  else
  let subscriberParam := defaultSubscriberAttributes
  if !env.info_alloc_ok then
    { handle := none, pinfo := some pinfo, trace := [],
      errorMsg := some "failed to allocate CustomSubscriberInfo" }
  else
  let infoId := participant.nextId
  let participant := { participant with nextId := participant.nextId + 1 }
  let trace := [Event.alloc (Resource.info infoId)]
  let info : CustomSubscriberInfo :=
    { infoId := infoId,
      typesupport_identifier := type_support.typesupport_identifier,
      type_support := none, listener := none, subscriber := none,
      subscription_gid := none }
  let type_name := _create_type_name type_support.callbacks
  let reg := getOrRegister env.type_support_alloc_ok participant type_name
  let participant := reg.2.1
  match reg.1 with
  | none =>
    { handle := none,
      pinfo := some { pinfo with participant := some participant },
      trace := trace ++ failUnwind (some info) none,
      errorMsg := some "failed to allocate MessageTypeSupport_cpp" }
  | some d =>
  let trace :=
    if reg.2.2 then trace ++ [Event.alloc (Resource.typeSupportAdapter d)]
    else trace
  let info := { info with type_support := some d }
  let subscriberParam :=
    if !pinfo.leave_middleware_default_qos then
      { subscriberParam with historyPreallocRealloc := true }
    else subscriberParam
  let subscriberParam :=
    { subscriberParam with
      withKey := keyed
      topicDataType := type_name
      topicName := _create_topic_name qos ros_topic_pfx tn }
  match get_datareader_qos qos subscriberParam with
  | none =>
    { handle := none,
      pinfo := some { pinfo with participant := some participant },
      trace := trace ++ failUnwind (some info) none,
      errorMsg := some "failed to get datareader qos" }
  | some subscriberParam =>
  if create_subscription_listener && !env.listener_alloc_ok then
    { handle := none,
      pinfo := some { pinfo with participant := some participant },
      trace := trace ++ failUnwind (some info) none,
      errorMsg := some "create_subscriber() could not create subscriber listener" }
  else
  let listenerStep : CustomSubscriberInfo × Participant × List Event :=
    if create_subscription_listener then
      let lid := participant.nextId
      ({ info with listener := some lid },
        { participant with nextId := participant.nextId + 1 },
        trace ++ [Event.alloc (Resource.listener lid)])
    else (info, participant, trace)
  let info := listenerStep.1
  let participant := listenerStep.2.1
  let trace := listenerStep.2.2
  if !env.create_subscriber_ok then
    { handle := none,
      pinfo := some { pinfo with participant := some participant },
      trace := trace ++ failUnwind (some info) none,
      errorMsg := some "create_subscriber() could not create subscriber" }
  else
  let sid := participant.nextId
  let participant := { participant with nextId := participant.nextId + 1 }
  let trace := trace ++ [Event.alloc (Resource.subscriber sid)]
  let info := { info with
    subscriber := some
      { sid := sid
        attrs := subscriberParam
        hasListener := info.listener.isSome }
    subscription_gid :=
      some (create_rmw_gid eprosima_fastrtps_identifier sid) }
  if !env.subscription_alloc_ok then
    { handle := none,
      pinfo := some { pinfo with participant := some participant },
      trace := trace ++ failUnwind (some info) none,
      errorMsg := some "failed to allocate subscription" }
  else
  let hid := participant.nextId
  let participant := { participant with nextId := participant.nextId + 1 }
  let trace := trace ++ [Event.alloc (Resource.subscriptionHandle hid)]
  if !env.strdup_ok then
    { handle := none,
      pinfo := some { pinfo with participant := some participant },
      trace := trace ++ failUnwind (some info) (some hid),
      errorMsg := some "failed to allocate memory for subscription topic name" }
  else
  let strId := participant.nextId
  let participant := { participant with nextId := participant.nextId + 1 }
  let trace := trace ++ [Event.alloc (Resource.topicNameString strId)]
  { handle := some
      { handleId := hid,
        implementation_identifier := eprosima_fastrtps_identifier,
        data := info, topic_name := tn, topicStringId := strId,
        options := opts },
    pinfo := some { pinfo with participant := some participant },
    trace := trace, errorMsg := none }

/-- Concrete factory run: the participant already has the message type
registered (descriptor 0, a cache hit), and the listener allocation fails;
everything else succeeds. -/
def hitThenListenerFail : CreateResult :=
  create_subscription ⟨true, true, false, true, true, true⟩
    (some ⟨some ⟨[("std_msgs::msg::dds_::String_", 0)], 1⟩, false⟩)
    [⟨RMW_FASTRTPS_CPP_TYPESUPPORT_C, ⟨"std_msgs::msg::dds_::String_"⟩⟩]
    (some "chatter") (some ⟨true, true, false⟩) (some ⟨0⟩) false true

/-- Concrete factory run: the transport reader is created successfully and
then the allocation of the caller-visible handle fails. -/
def readerThenHandleFail : CreateResult :=
  create_subscription ⟨true, true, true, true, false, true⟩
    (some ⟨some ⟨[], 0⟩, false⟩)
    [⟨RMW_FASTRTPS_CPP_TYPESUPPORT_C, ⟨"std_msgs::msg::dds_::String_"⟩⟩]
    (some "chatter") (some ⟨true, true, false⟩) (some ⟨0⟩) false true

/-! Helper lemmas shared by the claim theorems. -/

/-- Inversion of a successful validation: every nullable input was present,
the output container was zero-initialized, and the node carried this
implementation's identity. -/
theorem validate_ok_inv (identifier : String) (node : Option RmwNode)
    (allocator : Option Allocator) (nn ns : Option String)
    (tnt : Option NamesAndTypes)
    (h : __validate_input identifier node allocator nn ns tnt = RmwRet.ok) :
    allocator.isSome = true ∧
    (∃ x, node = some x ∧ x.implementation_identifier = identifier) ∧
    nn.isSome = true ∧ ns.isSome = true ∧
    rmw_names_and_types_check_zero tnt = RmwRet.ok := by
  cases allocator with
  | none => exact absurd h (by simp [__validate_input])
  | some a =>
    cases node with
    | none => exact absurd h (by simp [__validate_input])
    | some x =>
      cases nn with
      | none => exact absurd h (by simp [__validate_input])
      | some n =>
        cases ns with
        | none => exact absurd h (by simp [__validate_input])
        | some s =>
          cases hz : rmw_names_and_types_check_zero tnt with
          | ok =>
            by_cases hid : x.implementation_identifier = identifier
            · exact ⟨rfl, ⟨x, rfl, hid⟩, rfl, rfl, rfl⟩
            · simp [__validate_input, hz, hid] at h
          | error => simp [__validate_input, hz] at h
          | invalidArgument => simp [__validate_input, hz] at h
          | badAlloc => simp [__validate_input, hz] at h

/-- A failed validation short-circuits the dispatcher: it returns the
validation code and leaves the output container untouched, independently of
the index accessor. -/
theorem dispatch_early (identifier : String) (node : Option RmwNode)
    (allocator : Option Allocator) (nn ns : Option String)
    (dt dy : DemangleFunction) (nd : Bool)
    (get_fn : GetNamesAndTypesByNodeFunction) (tnt : Option NamesAndTypes)
    (h : __validate_input identifier node allocator nn ns tnt ≠ RmwRet.ok) :
    __rmw_get_topic_names_and_types_by_node identifier node allocator nn ns
      dt dy nd get_fn tnt
      = (__validate_input identifier node allocator nn ns tnt, tnt) := by
  simp only [__rmw_get_topic_names_and_types_by_node]
  rw [if_pos h]

/-- A successful validation makes the dispatcher delegate to the accessor,
with the identity demanglers substituted exactly when `no_demangle` is
set. -/
theorem dispatch_ok (identifier : String) (x : RmwNode) (a : Allocator)
    (n ns : String) (dt dy : DemangleFunction) (nd : Bool)
    (get_fn : GetNamesAndTypesByNodeFunction) (tnt : Option NamesAndTypes)
    (h : __validate_input identifier (some x) (some a) (some n) (some ns) tnt
      = RmwRet.ok) :
    __rmw_get_topic_names_and_types_by_node identifier (some x) (some a)
      (some n) (some ns) dt dy nd get_fn tnt
      = ((get_fn x.context n ns (if nd then _identity_demangle else dt)
            (if nd then _identity_demangle else dy) ()).1,
          some (get_fn x.context n ns (if nd then _identity_demangle else dt)
            (if nd then _identity_demangle else dy) ()).2) := by
  simp only [__rmw_get_topic_names_and_types_by_node]
  rw [if_neg (fun hn => hn h)]
  rfl

/-- Aggregation under the identity demangler pair keeps exactly the raw
names and types of the node's entities. -/
theorem getNamesAndTypesByNode_identity (n ns : String) :
    ∀ entities : List GraphEntity,
      getNamesAndTypesByNode entities n ns _identity_demangle
        _identity_demangle
      = ⟨(entities.filter (entityMatches n ns)).map
          fun e => (e.topicName, [e.typeName])⟩ := by
  intro entities
  induction entities with
  | nil => rfl
  | cons e es ih =>
    simp only [getNamesAndTypesByNode, List.filterMap_cons, List.filter_cons,
      _identity_demangle] at *
    by_cases hm : entityMatches n ns e
    · simp only [hm, if_true, List.map_cons]
      exact congrArg NamesAndTypes.mk
        (congrArg _ (congrArg NamesAndTypes.entries ih))
    · simp only [hm, if_false, Bool.false_eq_true]
      exact congrArg NamesAndTypes.mk (congrArg NamesAndTypes.entries ih)

/-- Every entry reported by the aggregation comes from an entity of the
queried node whose topic name the name demangler accepted. -/
theorem getNamesAndTypesByNode_mem (entities : List GraphEntity)
    (n ns : String) (dt dy : DemangleFunction) (nm : String)
    (tys : List String)
    (hm : (nm, tys) ∈ (getNamesAndTypesByNode entities n ns dt dy).entries) :
    ∃ e, e ∈ entities ∧ entityMatches n ns e = true ∧
      dt e.topicName = some nm := by
  simp only [getNamesAndTypesByNode, List.mem_filterMap] at hm
  obtain ⟨e, he, hfe⟩ := hm
  by_cases hme : entityMatches n ns e
  · rw [if_pos hme] at hfe
    cases hdt : dt e.topicName with
    | none => rw [hdt] at hfe; cases hdy : dy e.typeName <;>
        rw [hdy] at hfe <;> cases hfe
    | some v =>
      cases hdy : dy e.typeName with
      | none => rw [hdt, hdy] at hfe; cases hfe
      | some w =>
        rw [hdt, hdy] at hfe
        obtain ⟨hv, _⟩ := Prod.mk.injEq .. ▸ Option.some.injEq .. ▸ hfe
        exact ⟨e, he, hme, by rw [hdt, hv]⟩
  · rw [if_neg hme] at hfe
    cases hfe

/-! Claim theorems. -/

/-- C5: with the type name not yet registered, the first `getOrRegister`
call invokes the factory and registers the fresh descriptor, the second
call is a cache hit that returns the identical descriptor without invoking
the factory and without changing the registry, and a failing factory
propagates the failure leaving the registry unchanged. -/
theorem getOrRegister_factory_exactly_once (p : Participant) (tn : String)
    (h : getRegisteredType p tn = none) :
    getOrRegister true p tn
      = (some p.nextId,
        _register_type { p with nextId := p.nextId + 1 } tn p.nextId, true) ∧
    getOrRegister true
        (_register_type { p with nextId := p.nextId + 1 } tn p.nextId) tn
      = (some p.nextId,
        _register_type { p with nextId := p.nextId + 1 } tn p.nextId,
        false) ∧
    getOrRegister false p tn = (none, p, false) := by
  refine ⟨by simp [getOrRegister, h], ?_, by simp [getOrRegister, h]⟩
  simp [getOrRegister, getRegisteredType, _register_type]

/-- C5 witness: concrete run on an empty registry. -/
theorem getOrRegister_factory_exactly_once_witness :
    getRegisteredType ⟨[], 0⟩ "std_msgs::msg::dds_::String_" = none ∧
    (getOrRegister true ⟨[], 0⟩ "std_msgs::msg::dds_::String_"
      = (some 0, ⟨[("std_msgs::msg::dds_::String_", 0)], 1⟩, true) ∧
    getOrRegister true ⟨[("std_msgs::msg::dds_::String_", 0)], 1⟩
        "std_msgs::msg::dds_::String_"
      = (some 0, ⟨[("std_msgs::msg::dds_::String_", 0)], 1⟩, false) ∧
    getOrRegister false ⟨[], 0⟩ "std_msgs::msg::dds_::String_"
      = (none, ⟨[], 0⟩, false)) :=
  ⟨rfl, getOrRegister_factory_exactly_once ⟨[], 0⟩
    "std_msgs::msg::dds_::String_" rfl⟩

/-- C3 amended: a graph query whose node handle carries a foreign
implementation identifier (all other inputs valid) fails validation with
`RmwRet.error`, a classification distinct from the `invalidArgument` given
to null required inputs and zero-initialization violations. -/
theorem wrong_impl_identity_rejected_as_error (identifier : String)
    (x : RmwNode) (a : Allocator) (n ns : String) (tnt : Option NamesAndTypes)
    (hz : rmw_names_and_types_check_zero tnt = RmwRet.ok)
    (hid : x.implementation_identifier ≠ identifier) :
    __validate_input identifier (some x) (some a) (some n) (some ns) tnt
      = RmwRet.error := by
  simp [__validate_input, hz, hid]

/-- C3 witness: concrete mismatched identity. -/
theorem wrong_impl_identity_rejected_as_error_witness :
    rmw_names_and_types_check_zero (some ⟨[]⟩) = RmwRet.ok ∧
    RmwNode.implementation_identifier ⟨"other_rmw", ⟨[], []⟩⟩ ≠ "rmw_fastrtps_cpp" ∧
    __validate_input "rmw_fastrtps_cpp" (some ⟨"other_rmw", ⟨[], []⟩⟩)
      (some ()) (some "talker") (some "/ns") (some ⟨[]⟩) = RmwRet.error :=
  ⟨by decide, by decide,
    wrong_impl_identity_rejected_as_error "rmw_fastrtps_cpp"
      ⟨"other_rmw", ⟨[], []⟩⟩ () "talker" "/ns" (some ⟨[]⟩)
      (by decide) (by decide)⟩

/-- C3 counterexample: the mismatched-identity rejection is `error`, not
`invalidArgument` as the claim states. -/
theorem wrong_impl_identity_not_invalid_argument :
    __validate_input "rmw_fastrtps_cpp" (some ⟨"other_rmw", ⟨[], []⟩⟩)
      (some ()) (some "talker") (some "/ns") (some ⟨[]⟩) = RmwRet.error ∧
    RmwRet.error ≠ RmwRet.invalidArgument := by decide

/-- C4 amended: validation rejects, with a failure result and before any
index access (the dispatcher's answer is independent of the index accessor
and the output container is returned untouched), an absent allocator, an
absent node handle, a null node name, a null node namespace, a
non-zero-initialized output container, and a node of foreign identity;
empty (non-null) node names and namespaces are not rejected. -/
theorem query_rejects_missing_inputs_before_index_access (identifier : String)
    (node : Option RmwNode) (allocator : Option Allocator)
    (nn ns : Option String) (dt dy : DemangleFunction) (nd : Bool)
    (get_fn : GetNamesAndTypesByNodeFunction) (tnt : Option NamesAndTypes)
    (h : allocator = none ∨ node = none ∨ nn = none ∨ ns = none ∨
      rmw_names_and_types_check_zero tnt ≠ RmwRet.ok ∨
      ∀ x, node = some x → x.implementation_identifier ≠ identifier) :
    __validate_input identifier node allocator nn ns tnt ≠ RmwRet.ok ∧
    __rmw_get_topic_names_and_types_by_node identifier node allocator nn ns
      dt dy nd get_fn tnt
      = (__validate_input identifier node allocator nn ns tnt, tnt) := by
  have hne : __validate_input identifier node allocator nn ns tnt
      ≠ RmwRet.ok := by
    intro hok
    obtain ⟨ha, ⟨x, hx, hid⟩, hnn, hns, hz⟩ :=
      validate_ok_inv identifier node allocator nn ns tnt hok
    rcases h with h | h | h | h | h | h
    · rw [h] at ha; cases ha
    · rw [h] at hx; cases hx
    · rw [h] at hnn; cases hnn
    · rw [h] at hns; cases hns
    · exact h hz
    · exact h x hx hid
  exact ⟨hne, dispatch_early identifier node allocator nn ns dt dy nd
    get_fn tnt hne⟩

/-- C4 witness: a null node name is rejected before any index access. -/
theorem query_rejects_missing_inputs_before_index_access_witness :
    ((none : Option Allocator) = none ∨
      (some (RmwNode.mk "rmw_fastrtps_cpp" ⟨[], []⟩) : Option RmwNode) = none ∨
      (some "talker" : Option String) = none ∨
      (some "/ns" : Option String) = none ∨
      rmw_names_and_types_check_zero (some ⟨[]⟩) ≠ RmwRet.ok ∨
      ∀ x, (some (RmwNode.mk "rmw_fastrtps_cpp" ⟨[], []⟩) : Option RmwNode)
        = some x → x.implementation_identifier ≠ "rmw_fastrtps_cpp") ∧
    (__validate_input "rmw_fastrtps_cpp"
        (some (RmwNode.mk "rmw_fastrtps_cpp" ⟨[], []⟩)) none (some "talker")
        (some "/ns") (some ⟨[]⟩) ≠ RmwRet.ok ∧
      __rmw_get_topic_names_and_types_by_node "rmw_fastrtps_cpp"
        (some (RmwNode.mk "rmw_fastrtps_cpp" ⟨[], []⟩)) none (some "talker")
        (some "/ns") _identity_demangle _identity_demangle false
        __get_reader_names_and_types_by_node (some ⟨[]⟩)
      = (__validate_input "rmw_fastrtps_cpp"
          (some (RmwNode.mk "rmw_fastrtps_cpp" ⟨[], []⟩)) none
          (some "talker") (some "/ns") (some ⟨[]⟩), some ⟨[]⟩)) :=
  ⟨Or.inl rfl,
    query_rejects_missing_inputs_before_index_access "rmw_fastrtps_cpp"
      (some (RmwNode.mk "rmw_fastrtps_cpp" ⟨[], []⟩)) none (some "talker")
      (some "/ns") _identity_demangle _identity_demangle false
      __get_reader_names_and_types_by_node (some ⟨[]⟩) (Or.inl rfl)⟩

/-- C4 counterexample: a query whose node name and node namespace are the
empty string passes validation, contradicting the claim that it fails. -/
theorem empty_node_name_accepted :
    __validate_input "rmw_fastrtps_cpp"
      (some ⟨"rmw_fastrtps_cpp", ⟨[], []⟩⟩) (some ()) (some "") (some "")
      (some ⟨[]⟩) = RmwRet.ok := by decide

/-- C6: with `no_demangle` set, the subscriber-by-node and the
publisher-by-node queries substitute the identity demangler for both the
name and the type demangler, so the reported names and types are
byte-identical to the raw entries of the corresponding half of the shared
index. -/
theorem no_demangle_returns_raw_index_names (identifier : String)
    (x : RmwNode) (a : Allocator) (n ns : String)
    (tnt : Option NamesAndTypes)
    (h : __validate_input identifier (some x) (some a) (some n) (some ns) tnt
      = RmwRet.ok) :
    __rmw_get_subscriber_names_and_types_by_node identifier (some x) (some a)
      (some n) (some ns) true tnt
      = (RmwRet.ok, some ⟨(x.context.readers.filter (entityMatches n ns)).map
          fun e => (e.topicName, [e.typeName])⟩) ∧
    __rmw_get_publisher_names_and_types_by_node identifier (some x) (some a)
      (some n) (some ns) true tnt
      = (RmwRet.ok, some ⟨(x.context.writers.filter (entityMatches n ns)).map
          fun e => (e.topicName, [e.typeName])⟩) := by
  constructor
  · unfold __rmw_get_subscriber_names_and_types_by_node
    rw [dispatch_ok _ _ _ _ _ _ _ _ _ _ h]
    simp [__get_reader_names_and_types_by_node, getNamesAndTypesByNode_identity]
  · unfold __rmw_get_publisher_names_and_types_by_node
    rw [dispatch_ok _ _ _ _ _ _ _ _ _ _ h]
    simp [__get_writer_names_and_types_by_node, getNamesAndTypesByNode_identity]

/-- C6 witness: raw reader and writer names are returned unchanged on a
concrete cache. -/
theorem no_demangle_returns_raw_index_names_witness :
    __validate_input "rmw_fastrtps_cpp"
      (some ⟨"rmw_fastrtps_cpp",
        ⟨[⟨"talker", "/ns", "rt/chatter", "std_msgs::msg::dds_::String_"⟩],
         [⟨"talker", "/ns", "rt/out", "std_msgs::msg::dds_::Bool_"⟩]⟩⟩)
      (some ()) (some "talker") (some "/ns") (some ⟨[]⟩) = RmwRet.ok ∧
    (__rmw_get_subscriber_names_and_types_by_node "rmw_fastrtps_cpp"
      (some ⟨"rmw_fastrtps_cpp",
        ⟨[⟨"talker", "/ns", "rt/chatter", "std_msgs::msg::dds_::String_"⟩],
         [⟨"talker", "/ns", "rt/out", "std_msgs::msg::dds_::Bool_"⟩]⟩⟩)
      (some ()) (some "talker") (some "/ns") true (some ⟨[]⟩)
      = (RmwRet.ok, some
          ⟨(([⟨"talker", "/ns", "rt/chatter", "std_msgs::msg::dds_::String_"⟩]
            : List GraphEntity).filter (entityMatches "talker" "/ns")).map
            fun e => (e.topicName, [e.typeName])⟩) ∧
    __rmw_get_publisher_names_and_types_by_node "rmw_fastrtps_cpp"
      (some ⟨"rmw_fastrtps_cpp",
        ⟨[⟨"talker", "/ns", "rt/chatter", "std_msgs::msg::dds_::String_"⟩],
         [⟨"talker", "/ns", "rt/out", "std_msgs::msg::dds_::Bool_"⟩]⟩⟩)
      (some ()) (some "talker") (some "/ns") true (some ⟨[]⟩)
      = (RmwRet.ok, some
          ⟨(([⟨"talker", "/ns", "rt/out", "std_msgs::msg::dds_::Bool_"⟩]
            : List GraphEntity).filter (entityMatches "talker" "/ns")).map
            fun e => (e.topicName, [e.typeName])⟩)) :=
  ⟨by decide,
    no_demangle_returns_raw_index_names "rmw_fastrtps_cpp"
      ⟨"rmw_fastrtps_cpp",
        ⟨[⟨"talker", "/ns", "rt/chatter", "std_msgs::msg::dds_::String_"⟩],
         [⟨"talker", "/ns", "rt/out", "std_msgs::msg::dds_::Bool_"⟩]⟩⟩
      () "talker" "/ns" (some ⟨[]⟩) (by decide)⟩

/-- C7: on valid input the service-by-node query and the client-by-node
query both aggregate over the reader-side half of the shared index, with
the same service-type demangler but different name demanglers:
request-from-topic for services and reply-from-topic for clients. -/
theorem service_client_queries_use_reader_side (identifier : String)
    (x : RmwNode) (a : Allocator) (n ns : String)
    (tnt : Option NamesAndTypes)
    (h : __validate_input identifier (some x) (some a) (some n) (some ns) tnt
      = RmwRet.ok) :
    __rmw_get_service_names_and_types_by_node identifier (some x) (some a)
      (some n) (some ns) tnt
      = (RmwRet.ok, some (getNamesAndTypesByNode x.context.readers n ns
          _demangle_service_request_from_topic _demangle_service_type_only)) ∧
    __rmw_get_client_names_and_types_by_node identifier (some x) (some a)
      (some n) (some ns) tnt
      = (RmwRet.ok, some (getNamesAndTypesByNode x.context.readers n ns
          _demangle_service_reply_from_topic _demangle_service_type_only)) := by
  constructor
  · unfold __rmw_get_service_names_and_types_by_node
    rw [dispatch_ok _ _ _ _ _ _ _ _ _ _ h]
    rfl
  · unfold __rmw_get_client_names_and_types_by_node
    rw [dispatch_ok _ _ _ _ _ _ _ _ _ _ h]
    rfl

/-- C7 witness: concrete service and client queries over the reader side. -/
theorem service_client_queries_use_reader_side_witness :
    __validate_input "rmw_fastrtps_cpp"
      (some ⟨"rmw_fastrtps_cpp",
        ⟨[⟨"srv", "/ns", "rq/add_two_ints_Request",
            "demo::srv::dds_::AddTwoInts_Request_"⟩], []⟩⟩)
      (some ()) (some "srv") (some "/ns") (some ⟨[]⟩) = RmwRet.ok ∧
    (__rmw_get_service_names_and_types_by_node "rmw_fastrtps_cpp"
      (some ⟨"rmw_fastrtps_cpp",
        ⟨[⟨"srv", "/ns", "rq/add_two_ints_Request",
            "demo::srv::dds_::AddTwoInts_Request_"⟩], []⟩⟩)
      (some ()) (some "srv") (some "/ns") (some ⟨[]⟩)
      = (RmwRet.ok, some (getNamesAndTypesByNode
          [⟨"srv", "/ns", "rq/add_two_ints_Request",
            "demo::srv::dds_::AddTwoInts_Request_"⟩] "srv" "/ns"
          _demangle_service_request_from_topic _demangle_service_type_only)) ∧
    __rmw_get_client_names_and_types_by_node "rmw_fastrtps_cpp"
      (some ⟨"rmw_fastrtps_cpp",
        ⟨[⟨"srv", "/ns", "rq/add_two_ints_Request",
            "demo::srv::dds_::AddTwoInts_Request_"⟩], []⟩⟩)
      (some ()) (some "srv") (some "/ns") (some ⟨[]⟩)
      = (RmwRet.ok, some (getNamesAndTypesByNode
          [⟨"srv", "/ns", "rq/add_two_ints_Request",
            "demo::srv::dds_::AddTwoInts_Request_"⟩] "srv" "/ns"
          _demangle_service_reply_from_topic _demangle_service_type_only))) :=
  ⟨by decide,
    service_client_queries_use_reader_side "rmw_fastrtps_cpp"
      ⟨"rmw_fastrtps_cpp",
        ⟨[⟨"srv", "/ns", "rq/add_two_ints_Request",
            "demo::srv::dds_::AddTwoInts_Request_"⟩], []⟩⟩
      () "srv" "/ns" (some ⟨[]⟩) (by decide)⟩

/-- C10: the service and client entry points hardwire the dispatcher's
no-demangle flag to `false`, so the identity override is never applied
there: every name these queries return is the image of a raw reader-side
index name under the category's name demangler, never the raw name
itself. -/
theorem service_client_names_always_demangled (identifier : String)
    (x : RmwNode) (a : Allocator) (n ns : String)
    (tnt : Option NamesAndTypes)
    (h : __validate_input identifier (some x) (some a) (some n) (some ns) tnt
      = RmwRet.ok) :
    (∀ c nm tys,
      (__rmw_get_service_names_and_types_by_node identifier (some x) (some a)
          (some n) (some ns) tnt).2 = some c →
        (nm, tys) ∈ c.entries →
        ∃ e, e ∈ x.context.readers ∧ entityMatches n ns e = true ∧
          _demangle_service_request_from_topic e.topicName = some nm) ∧
    (∀ c nm tys,
      (__rmw_get_client_names_and_types_by_node identifier (some x) (some a)
          (some n) (some ns) tnt).2 = some c →
        (nm, tys) ∈ c.entries →
        ∃ e, e ∈ x.context.readers ∧ entityMatches n ns e = true ∧
          _demangle_service_reply_from_topic e.topicName = some nm) := by
  constructor
  · intro c nm tys hc hm
    unfold __rmw_get_service_names_and_types_by_node at hc
    rw [dispatch_ok _ _ _ _ _ _ _ _ _ _ h] at hc
    have hce := Option.some.inj hc
    rw [← hce] at hm
    exact getNamesAndTypesByNode_mem x.context.readers n ns
      _demangle_service_request_from_topic _demangle_service_type_only
      nm tys hm
  · intro c nm tys hc hm
    unfold __rmw_get_client_names_and_types_by_node at hc
    rw [dispatch_ok _ _ _ _ _ _ _ _ _ _ h] at hc
    have hce := Option.some.inj hc
    rw [← hce] at hm
    exact getNamesAndTypesByNode_mem x.context.readers n ns
      _demangle_service_reply_from_topic _demangle_service_type_only
      nm tys hm

/-- C10 witness: the concrete service result name `add_two_ints` is the
demangled image of the raw reader name `rq/add_two_ints_Request`. -/
theorem service_client_names_always_demangled_witness :
    __validate_input "rmw_fastrtps_cpp"
      (some ⟨"rmw_fastrtps_cpp",
        ⟨[⟨"srv", "/ns", "rq/add_two_ints_Request",
            "demo::srv::dds_::AddTwoInts_Request_"⟩], []⟩⟩)
      (some ()) (some "srv") (some "/ns") (some ⟨[]⟩) = RmwRet.ok ∧
    ∃ e, e ∈ ([⟨"srv", "/ns", "rq/add_two_ints_Request",
          "demo::srv::dds_::AddTwoInts_Request_"⟩] : List GraphEntity) ∧
      entityMatches "srv" "/ns" e = true ∧
      _demangle_service_request_from_topic e.topicName
        = some "add_two_ints" :=
  ⟨by decide,
    (service_client_names_always_demangled "rmw_fastrtps_cpp"
      ⟨"rmw_fastrtps_cpp",
        ⟨[⟨"srv", "/ns", "rq/add_two_ints_Request",
            "demo::srv::dds_::AddTwoInts_Request_"⟩], []⟩⟩
      () "srv" "/ns" (some ⟨[]⟩) (by decide)).1
      ⟨[("add_two_ints", ["demo::srv::dds_::AddTwoInts"])]⟩
      "add_two_ints" ["demo::srv::dds_::AddTwoInts"] (by decide) (by decide)⟩

/-- C8: every call rejected by the fail-fast validation of the factory — a
null or empty topic name, null qos, null options, null participant info, a
null underlying participant handle, no matching type-support candidate, or
invalid QoS — returns failure having allocated nothing and leaving the
participant state unchanged. -/
theorem create_validation_fails_fast (env : Env)
    (participant_info : Option CustomParticipantInfo)
    (type_supports : List TypeSupportCandidate) (topic_name : Option String)
    (qos_policies : Option QosProfile)
    (subscription_options : Option SubscriptionOptions)
    (keyed listen : Bool)
    (h : topic_name = none ∨ topic_name = some "" ∨ qos_policies = none ∨
      subscription_options = none ∨ participant_info = none ∨
      (∀ pi, participant_info = some pi → pi.participant = none) ∨
      resolve_type_support type_supports = none ∨
      (∀ q, qos_policies = some q → is_valid_qos q = false)) :
    (create_subscription env participant_info type_supports topic_name
        qos_policies subscription_options keyed listen).handle = none ∧
    (create_subscription env participant_info type_supports topic_name
        qos_policies subscription_options keyed listen).trace = [] ∧
    (create_subscription env participant_info type_supports topic_name
        qos_policies subscription_options keyed listen).pinfo
      = participant_info := by
  cases topic_name with
  | none => exact ⟨rfl, rfl, rfl⟩
  | some tn =>
  by_cases htn : strLen tn = 0
  · refine ⟨?_, ?_, ?_⟩ <;> simp [create_subscription, htn]
  · cases qos_policies with
    | none => refine ⟨?_, ?_, ?_⟩ <;> simp [create_subscription, htn]
    | some q =>
    cases subscription_options with
    | none => refine ⟨?_, ?_, ?_⟩ <;> simp [create_subscription, htn]
    | some o =>
    cases participant_info with
    | none => refine ⟨?_, ?_, ?_⟩ <;> simp [create_subscription, htn]
    | some pi =>
    cases hp : pi.participant with
    | none => refine ⟨?_, ?_, ?_⟩ <;> simp [create_subscription, htn, hp]
    | some pp =>
    cases hr : resolve_type_support type_supports with
    | none => refine ⟨?_, ?_, ?_⟩ <;> simp [create_subscription, htn, hp, hr]
    | some ts =>
    by_cases hq : is_valid_qos q = true
    · exfalso
      rcases h with h | h | h | h | h | h | h | h
      · exact Option.noConfusion h
      · exact htn (by rw [Option.some.inj h]; rfl)
      · exact Option.noConfusion h
      · exact Option.noConfusion h
      · exact Option.noConfusion h
      · rw [h pi rfl] at hp; exact Option.noConfusion hp
      · rw [h] at hr; exact Option.noConfusion hr
      · rw [h q rfl] at hq; exact Bool.noConfusion hq
    · have hq' : is_valid_qos q = false := by
        cases hvq : is_valid_qos q
        · rfl
        · exact absurd hvq hq
      refine ⟨?_, ?_, ?_⟩ <;> simp [create_subscription, htn, hp, hr, hq']

/-- C8 witness: an empty topic name is rejected with nothing allocated. -/
theorem create_validation_fails_fast_witness :
    ((some "" : Option String) = none ∨ (some "" : Option String) = some ""
      ∨ (some ⟨true, true, false⟩ : Option QosProfile) = none
      ∨ (some ⟨0⟩ : Option SubscriptionOptions) = none
      ∨ (some ⟨some ⟨[], 0⟩, false⟩ : Option CustomParticipantInfo) = none
      ∨ (∀ pi, (some ⟨some ⟨[], 0⟩, false⟩ : Option CustomParticipantInfo)
          = some pi → pi.participant = none)
      ∨ resolve_type_support
          [⟨RMW_FASTRTPS_CPP_TYPESUPPORT_C,
            ⟨"std_msgs::msg::dds_::String_"⟩⟩] = none
      ∨ (∀ q, (some ⟨true, true, false⟩ : Option QosProfile) = some q →
          is_valid_qos q = false)) ∧
    ((create_subscription allOk (some ⟨some ⟨[], 0⟩, false⟩)
        [⟨RMW_FASTRTPS_CPP_TYPESUPPORT_C, ⟨"std_msgs::msg::dds_::String_"⟩⟩]
        (some "") (some ⟨true, true, false⟩) (some ⟨0⟩) false true).handle
      = none ∧
    (create_subscription allOk (some ⟨some ⟨[], 0⟩, false⟩)
        [⟨RMW_FASTRTPS_CPP_TYPESUPPORT_C, ⟨"std_msgs::msg::dds_::String_"⟩⟩]
        (some "") (some ⟨true, true, false⟩) (some ⟨0⟩) false true).trace
      = [] ∧
    (create_subscription allOk (some ⟨some ⟨[], 0⟩, false⟩)
        [⟨RMW_FASTRTPS_CPP_TYPESUPPORT_C, ⟨"std_msgs::msg::dds_::String_"⟩⟩]
        (some "") (some ⟨true, true, false⟩) (some ⟨0⟩) false true).pinfo
      = some ⟨some ⟨[], 0⟩, false⟩) :=
  ⟨Or.inr (Or.inl rfl),
    create_validation_fails_fast allOk (some ⟨some ⟨[], 0⟩, false⟩)
      [⟨RMW_FASTRTPS_CPP_TYPESUPPORT_C, ⟨"std_msgs::msg::dds_::String_"⟩⟩]
      (some "") (some ⟨true, true, false⟩) (some ⟨0⟩) false true
      (Or.inr (Or.inl rfl))⟩

/-- C9: a successful creation with a listener requested returns a handle
whose topic name equals the input topic name and is backed by a freshly
allocated string copy, carrying this implementation's identity tag and a
copy of the creation options, with both a listener and a transport reader
present in the entity. -/
theorem create_success_populates_handle (pi : CustomParticipantInfo)
    (pp : Participant) (type_supports : List TypeSupportCandidate)
    (ts : TypeSupportCandidate) (tn : String) (q : QosProfile)
    (o : SubscriptionOptions) (keyed : Bool)
    (hpp : pi.participant = some pp)
    (htn : ¬ strLen tn = 0)
    (hr : resolve_type_support type_supports = some ts)
    (hq1 : is_valid_qos q = true)
    (hq2 : q.datareader_ok = true) :
    ((create_subscription allOk (some pi) type_supports (some tn) (some q)
        (some o) keyed true).handle).map (fun s => s.topic_name)
      = some tn ∧
    ((create_subscription allOk (some pi) type_supports (some tn) (some q)
        (some o) keyed true).handle).map
        (fun s => s.implementation_identifier)
      = some eprosima_fastrtps_identifier ∧
    ((create_subscription allOk (some pi) type_supports (some tn) (some q)
        (some o) keyed true).handle).map (fun s => s.options) = some o ∧
    ((create_subscription allOk (some pi) type_supports (some tn) (some q)
        (some o) keyed true).handle).map (fun s => s.data.listener.isSome)
      = some true ∧
    ((create_subscription allOk (some pi) type_supports (some tn) (some q)
        (some o) keyed true).handle).map (fun s => s.data.subscriber.isSome)
      = some true ∧
    ∀ s, (create_subscription allOk (some pi) type_supports (some tn)
        (some q) (some o) keyed true).handle = some s →
      Event.alloc (Resource.topicNameString s.topicStringId)
        ∈ (create_subscription allOk (some pi) type_supports (some tn)
            (some q) (some o) keyed true).trace := by
  cases hreg : pp.registry.find?
      fun e => e.1 == _create_type_name ts.callbacks with
  | some ent =>
    refine ⟨?_, ?_, ?_, ?_, ?_, ?_⟩ <;>
      simp [create_subscription, allOk, getOrRegister, getRegisteredType,
        hpp, htn, hr, hq1, hq2, hreg, get_datareader_qos]
  | none =>
    refine ⟨?_, ?_, ?_, ?_, ?_, ?_⟩ <;>
      simp [create_subscription, allOk, getOrRegister, getRegisteredType,
        hpp, htn, hr, hq1, hq2, hreg, get_datareader_qos]

/-- C9 witness: the spec scenario — type `std_msgs::msg::dds_::String_`,
topic `chatter`, default QoS, listener requested. -/
theorem create_success_populates_handle_witness :
    (CustomParticipantInfo.participant ⟨some ⟨[], 0⟩, false⟩ = some ⟨[], 0⟩ ∧
      ¬ strLen "chatter" = 0 ∧
      resolve_type_support
        [⟨RMW_FASTRTPS_CPP_TYPESUPPORT_C, ⟨"std_msgs::msg::dds_::String_"⟩⟩]
        = some ⟨RMW_FASTRTPS_CPP_TYPESUPPORT_C,
            ⟨"std_msgs::msg::dds_::String_"⟩⟩ ∧
      is_valid_qos ⟨true, true, false⟩ = true ∧
      QosProfile.datareader_ok ⟨true, true, false⟩ = true) ∧
    ((create_subscription allOk (some ⟨some ⟨[], 0⟩, false⟩)
        [⟨RMW_FASTRTPS_CPP_TYPESUPPORT_C, ⟨"std_msgs::msg::dds_::String_"⟩⟩]
        (some "chatter") (some ⟨true, true, false⟩) (some ⟨7⟩) false
        true).handle).map (fun s => s.topic_name) = some "chatter" ∧
    ((create_subscription allOk (some ⟨some ⟨[], 0⟩, false⟩)
        [⟨RMW_FASTRTPS_CPP_TYPESUPPORT_C, ⟨"std_msgs::msg::dds_::String_"⟩⟩]
        (some "chatter") (some ⟨true, true, false⟩) (some ⟨7⟩) false
        true).handle).map (fun s => s.data.listener.isSome) = some true ∧
    ((create_subscription allOk (some ⟨some ⟨[], 0⟩, false⟩)
        [⟨RMW_FASTRTPS_CPP_TYPESUPPORT_C, ⟨"std_msgs::msg::dds_::String_"⟩⟩]
        (some "chatter") (some ⟨true, true, false⟩) (some ⟨7⟩) false
        true).handle).map (fun s => s.data.subscriber.isSome) = some true :=
  ⟨⟨rfl, by decide, by decide, rfl, rfl⟩,
    (create_success_populates_handle ⟨some ⟨[], 0⟩, false⟩ ⟨[], 0⟩
      [⟨RMW_FASTRTPS_CPP_TYPESUPPORT_C, ⟨"std_msgs::msg::dds_::String_"⟩⟩]
      ⟨RMW_FASTRTPS_CPP_TYPESUPPORT_C, ⟨"std_msgs::msg::dds_::String_"⟩⟩
      "chatter" ⟨true, true, false⟩ ⟨7⟩ false rfl (by decide) (by decide)
      rfl rfl).1,
    (create_success_populates_handle ⟨some ⟨[], 0⟩, false⟩ ⟨[], 0⟩
      [⟨RMW_FASTRTPS_CPP_TYPESUPPORT_C, ⟨"std_msgs::msg::dds_::String_"⟩⟩]
      ⟨RMW_FASTRTPS_CPP_TYPESUPPORT_C, ⟨"std_msgs::msg::dds_::String_"⟩⟩
      "chatter" ⟨true, true, false⟩ ⟨7⟩ false rfl (by decide) (by decide)
      rfl rfl).2.2.2.1,
    (create_success_populates_handle ⟨some ⟨[], 0⟩, false⟩ ⟨[], 0⟩
      [⟨RMW_FASTRTPS_CPP_TYPESUPPORT_C, ⟨"std_msgs::msg::dds_::String_"⟩⟩]
      ⟨RMW_FASTRTPS_CPP_TYPESUPPORT_C, ⟨"std_msgs::msg::dds_::String_"⟩⟩
      "chatter" ⟨true, true, false⟩ ⟨7⟩ false rfl (by decide) (by decide)
      rfl rfl).2.2.2.2.1⟩

/-- C1: at a concrete failing input — the type already registered with the
participant before the call (descriptor 0, a cache hit) and the listener
allocation failing afterwards — the failure unwind deletes the shared
type-support adapter this call never allocated, tearing down the shared
registration (the registry still maps the type to descriptor 0). -/
theorem cache_hit_adapter_deleted_on_failed_create :
    getRegisteredType ⟨[("std_msgs::msg::dds_::String_", 0)], 1⟩
      "std_msgs::msg::dds_::String_" = some 0 ∧
    hitThenListenerFail.handle = none ∧
    Event.free (Resource.typeSupportAdapter 0) ∈ hitThenListenerFail.trace ∧
    Event.alloc (Resource.typeSupportAdapter 0) ∉ hitThenListenerFail.trace ∧
    (hitThenListenerFail.pinfo.bind CustomParticipantInfo.participant).map
      Participant.registry = some [("std_msgs::msg::dds_::String_", 0)] := by
  decide

/-- C2: at a concrete failing input — reader creation succeeds and the
allocation of the caller-visible handle then fails — the failure path
returns without destroying the just-created transport reader: the reader's
allocation has no matching deallocation in the trace. -/
theorem transport_reader_leaked_on_failed_create :
    readerThenHandleFail.handle = none ∧
    Event.alloc (Resource.subscriber 3) ∈ readerThenHandleFail.trace ∧
    Event.free (Resource.subscriber 3) ∉ readerThenHandleFail.trace := by
  decide

end RmwFastrtps
